import Mathlib

/-!
Verification of the fitness-tracker homework (`homework.py`).

Python floats are modelled as exact rationals (`ℚ`); Python's float floor
division `//` is modelled by `floorDiv` below.  Python runtime exceptions that
the program can raise are modelled by the `PyError` type:
`keyError` is the `KeyError` raised by the dict subscript in `read_package`,
`arityMismatch` is the `TypeError` raised when a class is called with the
wrong number of positional arguments (`Training(*data)` with a list whose
length does not match the constructor's arity), and `notImplementedError` is
the `NotImplementedError` raised by the base class `Training.get_spent_calories`.
-/

/-- Runtime errors the Python program can raise. -/
inductive PyError where
  | keyError (key : String)
  | arityMismatch (expected got : Nat)
  | notImplementedError (msg : String)
  deriving DecidableEq, Repr

/-- Python float floor division `x // y` (both operands modelled as rationals). -/
def floorDiv (x y : ℚ) : ℚ := (⌊x / y⌋ : ℤ)

/-- Character for the decimal digit `n % 10` (models digit rendering inside
Python's percent-formatting). -/
def digitOf (n : Nat) : Char := Char.ofNat (48 + n % 10)

/-- The three digits of `k` (for `k < 1000`), most significant first;
used for the fractional part of a `%.3f` rendering. -/
def pad3 (k : Nat) : List Char := [digitOf (k / 100), digitOf (k / 10), digitOf k]

/-- Model of Python's `'%.3f' % x`: round to 3 decimal places and render with
a sign, an integer part, a dot, and exactly three fractional digits. -/
def format3 (q : ℚ) : String :=
  String.mk
    ((if round (q * 1000) < 0 then ['-'] else [])
      ++ (Nat.repr ((round (q * 1000)).natAbs / 1000)).data
      ++ '.' :: pad3 ((round (q * 1000)).natAbs % 1000))

/-- Number of characters strictly after the last dot of `s` (the count of
fractional digits of a formatted number). -/
def fracLen (s : String) : Nat :=
  (s.data.reverse.takeWhile (fun c => c != '.')).length

/-- `InfoMessage` from `homework.py`: the summary record; its numeric fields
are the raw values, formatted only by `get_message`. -/
structure InfoMessage where
  training_type : String
  duration : ℚ
  distance : ℚ
  speed : ℚ
  calories : ℚ
  deriving DecidableEq, Repr

/-- `InfoMessage.get_message`: instantiation of the fixed template
`TRAINING_MESSAGE` with the four numeric fields rendered via `'%.3f'`. -/
def InfoMessage.get_message (i : InfoMessage) : String :=
  "Тип тренировки: " ++ i.training_type
    ++ "; Длительность: " ++ format3 i.duration
    ++ " ч.; Дистанция: " ++ format3 i.distance
    ++ " км; Ср. скорость: " ++ format3 i.speed
    ++ " км/ч; Потрачено ккал: " ++ format3 i.calories ++ "."

/-- The closed set of concrete training classes of `homework.py`:
`Running`, `SportsWalking`, `Swimming`, each holding its constructor fields. -/
inductive Training where
  | running (action duration weight : ℚ)
  | sportsWalking (action duration weight height : ℚ)
  | swimming (action duration weight length_pool count_pool : ℚ)
  deriving DecidableEq, Repr

namespace Training

/-- Class attribute `Training.M_IN_KM`. -/
def M_IN_KM : ℚ := 1000

/-- Attribute `self.action` (set in `Training.__init__`). -/
def action : Training → ℚ
  | .running a _ _ => a
  | .sportsWalking a _ _ _ => a
  | .swimming a _ _ _ _ => a

/-- Attribute `self.duration_hours` (set in `Training.__init__`). -/
def duration_hours : Training → ℚ
  | .running _ d _ => d
  | .sportsWalking _ d _ _ => d
  | .swimming _ d _ _ _ => d

/-- Attribute `self.weight` (set in `Training.__init__`). -/
def weight : Training → ℚ
  | .running _ _ w => w
  | .sportsWalking _ _ w _ => w
  | .swimming _ _ w _ _ => w

/-- Class attribute `LEN_STEP`: `0.65` on `Training` (inherited by `Running`
and `SportsWalking`), overridden to `1.38` on `Swimming`. -/
def LEN_STEP : Training → ℚ
  | .swimming _ _ _ _ _ => 1.38
  | _ => 0.65

/-- `Training.get_distance`: `(self.action * self.LEN_STEP) / self.M_IN_KM`.
No subclass overrides it. -/
def get_distance (t : Training) : ℚ := t.action * t.LEN_STEP / M_IN_KM

/-- The body of `Training.get_mean_speed` (what `super().get_mean_speed()`
runs): `self.get_distance() / self.duration_hours`. -/
def base_get_mean_speed (t : Training) : ℚ := t.get_distance / t.duration_hours

/-- Dynamically dispatched `get_mean_speed`: `Swimming` overrides it to
`(self.length_pool * self.count_pool) / self.M_IN_KM / self.duration_hours`;
the other classes inherit the base body. -/
def get_mean_speed : Training → ℚ
  | .swimming _ d _ lp cp => lp * cp / M_IN_KM / d
  | t => base_get_mean_speed t

/-- The body of `Training.get_spent_calories` on the base class: it only
raises `NotImplementedError`, never returns a value. -/
def base_get_spent_calories (_ : Training) : Except PyError ℚ :=
  .error (.notImplementedError "Метод не определен в наследнике!")

end Training

namespace Running

/-- Class attribute `Running.COEFF_CALORIE_1`. -/
def COEFF_CALORIE_1 : ℚ := 18

/-- Class attribute `Running.COEFF_CALORIE_2`. -/
def COEFF_CALORIE_2 : ℚ := 20

/-- Class attribute `Running.MINS_IN_HOUR`. -/
def MINS_IN_HOUR : ℚ := 60

end Running

namespace SportsWalking

/-- Class attribute `SportsWalking.COEFF_CALORIE_1`. -/
def COEFF_CALORIE_1 : ℚ := 0.035

/-- Class attribute `SportsWalking.COEFF_CALORIE_2`. -/
def COEFF_CALORIE_2 : ℚ := 0.029

/-- Class attribute `SportsWalking.MINS_IN_HOUR`. -/
def MINS_IN_HOUR : ℚ := 60

end SportsWalking

namespace Swimming

/-- Class attribute `Swimming.COEFF_CALORIE_1`. -/
def COEFF_CALORIE_1 : ℚ := 1.1

/-- Class attribute `Swimming.COEFF_CALORIE_2`. -/
def COEFF_CALORIE_2 : ℚ := 2

end Swimming

namespace Training

/-- Dynamically dispatched `get_spent_calories` of the three concrete
classes.  `Running` and `SportsWalking` take the mean speed from
`super().get_mean_speed()`; `Swimming` calls its own override. -/
def get_spent_calories : Training → ℚ
  | .running a d w =>
      (Running.COEFF_CALORIE_1 * base_get_mean_speed (.running a d w)
          - Running.COEFF_CALORIE_2)
        * w / M_IN_KM * (d * Running.MINS_IN_HOUR)
  | .sportsWalking a d w h =>
      ((SportsWalking.COEFF_CALORIE_1 * w)
          + (floorDiv (base_get_mean_speed (.sportsWalking a d w h) ^ 2) h
              * SportsWalking.COEFF_CALORIE_2 * w))
        * (d * SportsWalking.MINS_IN_HOUR)
  | .swimming a d w lp cp =>
      (get_mean_speed (.swimming a d w lp cp) + Swimming.COEFF_CALORIE_1)
        * Swimming.COEFF_CALORIE_2 * w

/-- `type(self).__name__`: the implementing class's own name. -/
def class_name : Training → String
  | .running _ _ _ => "Running"
  | .sportsWalking _ _ _ _ => "SportsWalking"
  | .swimming _ _ _ _ _ => "Swimming"

/-- `Training.show_training_info`: builds the `InfoMessage` from
`type(self).__name__`, the duration and the three derived metrics. -/
def show_training_info (t : Training) : InfoMessage :=
  { training_type := t.class_name
    duration := t.duration_hours
    distance := t.get_distance
    speed := t.get_mean_speed
    calories := t.get_spent_calories }

end Training

/-- `read_package`: dict lookup of the workout code, then construction via
argument unpacking `training_codes[workout_type](*data)`.  An unknown code
makes the subscript raise `KeyError`; a recognized code with a list whose
length differs from the constructor's arity makes the call raise `TypeError`
(modelled as `arityMismatch`). -/
def read_package (workout_type : String) (data : List ℚ) : Except PyError Training :=
  if workout_type = "SWM" then
    match data with
    | [a, d, w, lp, cp] => .ok (.swimming a d w lp cp)
    | _ => .error (.arityMismatch 5 data.length)
  else if workout_type = "RUN" then
    match data with
    | [a, d, w] => .ok (.running a d w)
    | _ => .error (.arityMismatch 3 data.length)
  else if workout_type = "WLK" then
    match data with
    | [a, d, w, h] => .ok (.sportsWalking a d w h)
    | _ => .error (.arityMismatch 4 data.length)
  else
    .error (.keyError workout_type)

/-- Walking calorie formula transcribed from the spec's table:
`(0.035*weight_kg + (mean_speed_kmh^2 integer-divided by height_cm) *
0.029*weight_kg) * duration_minutes`, with `duration_minutes =
duration_hours * 60` and floor (integer) division at the speed-squared-over-
height step. -/
def walking_calories_spec (weight_kg height_cm duration_hours mean_speed_kmh : ℚ) : ℚ :=
  (0.035 * weight_kg + ((⌊mean_speed_kmh ^ 2 / height_cm⌋ : ℤ) : ℚ) * 0.029 * weight_kg)
    * (duration_hours * 60)

/-! ## General lemmas about the formatter -/

/-- A rendered decimal digit is never the dot character. -/
theorem digitOf_ne_dot (n : Nat) : digitOf n ≠ '.' := by
  unfold digitOf
  have h : n % 10 < 10 := Nat.mod_lt _ (by norm_num)
  set m := n % 10 with hm
  interval_cases m <;> decide

/-- A string ending in a dot followed by three non-dot characters has
exactly three characters after its last dot. -/
theorem fracLen_mk (l : List Char) (c1 c2 c3 : Char)
    (h1 : c1 ≠ '.') (h2 : c2 ≠ '.') (h3 : c3 ≠ '.') :
    fracLen (String.mk (l ++ '.' :: [c1, c2, c3])) = 3 := by
  unfold fracLen
  simp [List.takeWhile_cons, h1, h2, h3]

/-- Every `'%.3f'` rendering has exactly three fractional digits. -/
theorem fracLen_format3 (q : ℚ) : fracLen (format3 q) = 3 := by
  unfold format3 pad3
  exact fracLen_mk _ _ _ _ (digitOf_ne_dot _) (digitOf_ne_dot _) (digitOf_ne_dot _)

/-- Evaluation rule for `format3` once the rounded value is known to be the
nonnegative integer `n`. -/
theorem format3_of_round (q : ℚ) (n : ℕ) (h : round (q * 1000) = (n : ℤ)) :
    format3 q = String.mk ((Nat.repr (n / 1000)).data ++ '.' :: pad3 (n % 1000)) := by
  unfold format3
  rw [h, if_neg (not_lt.mpr (Int.natCast_nonneg n))]
  simp

/-! ## Claims -/

/-- C1, counterexample: for the input `("SWM", [720, 1, 80, 25, 40])` the
summary report's distance field is not `1.0` km — `get_distance` is
stride-based (`720 * 1.38 / 1000 = 0.9936`), while the pool-based quantity
`25*40/1000` only enters the mean speed. -/
theorem swim_distance_not_one :
    (Training.show_training_info (.swimming 720 1 80 25 40)).distance ≠ 1 := by
  simp [Training.show_training_info, Training.get_distance, Training.action,
    Training.LEN_STEP, Training.M_IN_KM]
  norm_num

/-- C1, amended: for the input `("SWM", [720, 1, 80, 25, 40])` the factory
produces the Swimming record, and its summary reports duration 1 h,
distance `720 * 1.38 / 1000 = 0.9936` km, mean speed 1.0 km/h and calories
`(1.0 + 1.1) * 2 * 80 = 336.0`. -/
theorem swim_scenario_summary :
    read_package "SWM" [720, 1, 80, 25, 40] = .ok (.swimming 720 1 80 25 40)
      ∧ Training.show_training_info (.swimming 720 1 80 25 40)
          = ⟨"Swimming", 1, 0.9936, 1, 336⟩ := by
  refine ⟨rfl, ?_⟩
  simp [Training.show_training_info, Training.class_name, Training.duration_hours,
    Training.get_distance, Training.get_mean_speed, Training.get_spent_calories,
    Training.action, Training.LEN_STEP, Training.M_IN_KM,
    Swimming.COEFF_CALORIE_1, Swimming.COEFF_CALORIE_2]
  norm_num

/-- C2: for every valid Walking record (positive duration, weight, height),
`get_spent_calories` equals the spec's formula
`(0.035*weight + (mean_speed^2 floor-divided by height) * 0.029*weight) *
duration_hours*60`, with floor (integer) division at the
speed-squared-over-height step. -/
theorem walking_calories_matches_spec (a d w h : ℚ)
    (hd : 0 < d) (hw : 0 < w) (hh : 0 < h) :
    Training.get_spent_calories (.sportsWalking a d w h)
      = walking_calories_spec w h d (Training.get_mean_speed (.sportsWalking a d w h)) := rfl

/-- C2, witness: the walking scenario `[9000, 1, 75, 180]` satisfies the
positivity hypotheses and the equality. -/
theorem walking_calories_matches_spec_witness :
    (0 : ℚ) < 1 ∧ (0 : ℚ) < 75 ∧ (0 : ℚ) < 180
      ∧ Training.get_spent_calories (.sportsWalking 9000 1 75 180)
          = walking_calories_spec 75 180 1
              (Training.get_mean_speed (.sportsWalking 9000 1 75 180)) :=
  ⟨by norm_num, by norm_num, by norm_num,
    walking_calories_matches_spec 9000 1 75 180 (by norm_num) (by norm_num) (by norm_num)⟩

/-- C3: on the unknown code `"XYZ"` the factory raises the `KeyError` of the
dict subscript `training_codes[workout_type]`; there is no explicit
pre-dispatch validation and no dedicated unrecognized-workout-type error in
the code. -/
theorem unknown_code_keyerror :
    read_package "XYZ" [1, 2, 3] = .error (.keyError "XYZ") := rfl

/-- C4, counterexample: for the input `("RUN", [15000, 1, 75])` the summary
report's calories field is not `701.55`: the formula
`(18 * 9.75 - 20) * 75 / 1000 * 60` evaluates to `699.75`. -/
theorem run_calories_not_701_55 :
    (Training.show_training_info (.running 15000 1 75)).calories ≠ 701.55 := by
  simp [Training.show_training_info, Training.get_spent_calories,
    Training.base_get_mean_speed, Training.get_distance, Training.action,
    Training.LEN_STEP, Training.M_IN_KM, Training.duration_hours,
    Running.COEFF_CALORIE_1, Running.COEFF_CALORIE_2, Running.MINS_IN_HOUR]
  norm_num

/-- C4, amended: for the input `("RUN", [15000, 1, 75])` the factory produces
the Running record, and its summary reports duration 1 h, distance
`15000 * 0.65 / 1000 = 9.75` km, mean speed 9.75 km/h and calories
`(18 * 9.75 - 20) * 75 / 1000 * 60 = 699.75`. -/
theorem run_scenario_summary :
    read_package "RUN" [15000, 1, 75] = .ok (.running 15000 1 75)
      ∧ Training.show_training_info (.running 15000 1 75)
          = ⟨"Running", 1, 9.75, 9.75, 699.75⟩ := by
  refine ⟨rfl, ?_⟩
  simp [Training.show_training_info, Training.class_name, Training.duration_hours,
    Training.get_distance, Training.get_mean_speed, Training.get_spent_calories,
    Training.base_get_mean_speed, Training.action, Training.LEN_STEP, Training.M_IN_KM,
    Running.COEFF_CALORIE_1, Running.COEFF_CALORIE_2, Running.MINS_IN_HOUR]
  norm_num

/-- C5, counterexample: the summary line of the swimming scenario is the
Russian-language template of the code, not the English template of the
claim; at this concrete record the English rendering the claim predicts is
not produced. -/
theorem message_not_english_template :
    (Training.show_training_info (.swimming 720 1 80 25 40)).get_message
      ≠ "Workout type: Swimming; Duration: 1.000 h; Distance: 0.994 km; Avg speed: 1.000 km/h; Calories: 336.000." := by
  have hinfo : Training.show_training_info (.swimming 720 1 80 25 40)
      = ⟨"Swimming", 1, 0.9936, 1, 336⟩ := by
    simp [Training.show_training_info, Training.class_name, Training.duration_hours,
      Training.get_distance, Training.get_mean_speed, Training.get_spent_calories,
      Training.action, Training.LEN_STEP, Training.M_IN_KM,
      Swimming.COEFF_CALORIE_1, Swimming.COEFF_CALORIE_2]
    norm_num
  have hmsg : InfoMessage.get_message ⟨"Swimming", 1, 0.9936, 1, 336⟩
      = "Тип тренировки: Swimming; Длительность: 1.000 ч.; Дистанция: 0.994 км; Ср. скорость: 1.000 км/ч; Потрачено ккал: 336.000." := by
    unfold InfoMessage.get_message
    rw [format3_of_round (1 : ℚ) 1000 (by rw [round_eq]; norm_num),
      format3_of_round (0.9936 : ℚ) 994 (by rw [round_eq]; norm_num),
      format3_of_round (336 : ℚ) 336000 (by rw [round_eq]; norm_num)]
    rfl
  rw [hinfo, hmsg]
  decide

/-- C5, amended: for every record, the rendered summary string is the code's
fixed Russian template — type label, then the four numeric fields duration,
distance, speed and calories in that order, each rendered with exactly 3
fractional digits, with a final period. -/
theorem message_template_three_decimals (i : InfoMessage) :
    ∃ f1 f2 f3 f4 : String,
      i.get_message
          = "Тип тренировки: " ++ i.training_type ++ "; Длительность: " ++ f1
            ++ " ч.; Дистанция: " ++ f2 ++ " км; Ср. скорость: " ++ f3
            ++ " км/ч; Потрачено ккал: " ++ f4 ++ "."
        ∧ fracLen f1 = 3 ∧ fracLen f2 = 3 ∧ fracLen f3 = 3 ∧ fracLen f4 = 3 :=
  ⟨format3 i.duration, format3 i.distance, format3 i.speed, format3 i.calories,
    rfl, fracLen_format3 _, fracLen_format3 _, fracLen_format3 _, fracLen_format3 _⟩

/-- C6: for every record, `get_distance` returns `action * LEN_STEP / 1000`,
with `LEN_STEP` equal to `0.65` for Running and SportsWalking and `1.38` for
Swimming. -/
theorem distance_formula (a d w h lp cp : ℚ) :
    Training.get_distance (.running a d w) = a * 0.65 / 1000
      ∧ Training.get_distance (.sportsWalking a d w h) = a * 0.65 / 1000
      ∧ Training.get_distance (.swimming a d w lp cp) = a * 1.38 / 1000 :=
  ⟨rfl, rfl, rfl⟩

/-- C7: for every Swimming record with positive duration, `get_mean_speed`
equals `length_pool * count_pool / 1000 / duration_hours`, and it is
independent of the `action` field. -/
theorem swim_mean_speed_pool_based (a a2 d w lp cp : ℚ) (hd : 0 < d) :
    Training.get_mean_speed (.swimming a d w lp cp) = lp * cp / 1000 / d
      ∧ Training.get_mean_speed (.swimming a2 d w lp cp)
          = Training.get_mean_speed (.swimming a d w lp cp) :=
  ⟨rfl, rfl⟩

/-- C7, witness: the swimming scenario with the action field replaced by 999
still has mean speed `25 * 40 / 1000 / 1`. -/
theorem swim_mean_speed_pool_based_witness :
    (0 : ℚ) < 1
      ∧ Training.get_mean_speed (.swimming 720 1 80 25 40) = 25 * 40 / 1000 / 1
      ∧ Training.get_mean_speed (.swimming 999 1 80 25 40)
          = Training.get_mean_speed (.swimming 720 1 80 25 40) :=
  ⟨by norm_num, swim_mean_speed_pool_based 720 999 1 80 25 40 (by norm_num)⟩

/-- C8: for every recognized workout code, a parameter list whose length
differs from the selected class's constructor arity (5 for SWM, 3 for RUN,
4 for WLK) makes the factory fail with the arity-mismatch error (Python's
`TypeError` on argument unpacking). -/
theorem wrong_arity_error (code : String) (data : List ℚ) (arity : ℕ)
    (hc : code = "SWM" ∧ arity = 5 ∨ code = "RUN" ∧ arity = 3 ∨ code = "WLK" ∧ arity = 4)
    (hlen : data.length ≠ arity) :
    read_package code data = .error (.arityMismatch arity data.length) := by
  rcases hc with ⟨hc, ha⟩ | ⟨hc, ha⟩ | ⟨hc, ha⟩ <;> subst hc <;> subst ha <;>
    rcases data with _ | ⟨a, _ | ⟨b, _ | ⟨c, _ | ⟨d, _ | ⟨e, _ | ⟨f, rest⟩⟩⟩⟩⟩⟩ <;>
    simp_all [read_package]

/-- C8, witness: `read_package "RUN" [1, 2]` (arity 3 expected, 2 given)
fails with the arity-mismatch error. -/
theorem wrong_arity_error_witness :
    ([(1 : ℚ), 2].length ≠ 3)
      ∧ read_package "RUN" [1, 2] = .error (.arityMismatch 3 2) :=
  ⟨by decide, wrong_arity_error "RUN" [1, 2] 3 (Or.inr (Or.inl ⟨rfl, rfl⟩)) (by decide)⟩

/-- C9: the base-class calorie method always signals the
not-implemented failure and never returns a value. -/
theorem base_calories_unimplemented (t : Training) :
    Training.base_get_spent_calories t
        = Except.error (PyError.notImplementedError "Метод не определен в наследнике!")
      ∧ ∀ q : ℚ, Training.base_get_spent_calories t ≠ Except.ok q :=
  ⟨rfl, fun _ h => Except.noConfusion h⟩

/-- C10: the workout type name placed in the summary is the implementing
class's own name — "Running" for RUN, "SportsWalking" (not "Walking") for
WLK, "Swimming" for SWM — and the factory maps each code to that class. -/
theorem summary_type_is_class_name (a d w h lp cp : ℚ) :
    (Training.show_training_info (.running a d w)).training_type = "Running"
      ∧ (Training.show_training_info (.sportsWalking a d w h)).training_type = "SportsWalking"
      ∧ (Training.show_training_info (.swimming a d w lp cp)).training_type = "Swimming"
      ∧ read_package "RUN" [a, d, w] = .ok (.running a d w)
      ∧ read_package "WLK" [a, d, w, h] = .ok (.sportsWalking a d w h)
      ∧ read_package "SWM" [a, d, w, lp, cp] = .ok (.swimming a d w lp cp) :=
  ⟨rfl, rfl, rfl, rfl, rfl, rfl⟩
